import Mathlib

/-!
Verification of the browser chat client (`src/public/chat.js`) and its
backend proxy worker against the repository specification.

Modelling conventions for the shallow embedding:

* JavaScript objects become Lean structures; the mutable globals
  (`chats`, `currentChatId`, `currentChatHistory`, `isProcessing`) together
  with the browser environment (`localStorage`, the visible message list,
  the `console.error` log) form one explicit `AppState` record that every
  operation threads.
* `localStorage` under the single key `oss120b_chats` holds a
  JSON-serialised array of chats; since `JSON.stringify`/`JSON.parse` is
  the identity round trip on this data model, the store is modelled as
  `Option (List Chat)` (`none` = key absent).  A possible quota failure of
  `localStorage.setItem` (caught and only logged in the source) is modelled
  by the explicit `quotaOk : Bool` argument of `saveChats`.
* In JavaScript, `currentChatHistory` aliases the history *array object* of
  the chat selected by `setCurrentChat`; a `push` mutates both.  Lean has
  no aliasing, so `pushCurrentHistory` performs the same mutation at both
  locations: it appends to `currentChatHistory` and rewrites the history of
  the first chat whose id equals `currentChatId` (the alias target).
* JavaScript truthiness of the nullable string `currentChatId` is
  `jsTruthyOptStr`; truthiness of a plain string is inequality with `""`.
* DOM side effects are projected to data: the rendered message list is the
  `ui` field (placeholder elements such as the thinking indicator are not
  messages and are not modelled), `console.error` appends to `logs`, and
  the sidebar is the pure projection `chatListItems`.
* Nondeterministic id generation (`Date.now() + random suffix`) is an
  explicit argument, and `confirm(...)` is an explicit `Bool`.
-/

/-- A chat message: `{ role, content }` (chat.js data model). -/
structure Message where
  role : String
  content : String
deriving Repr, DecidableEq

/-- A chat session: `{ id, title, history }` (chat.js `@typedef Chat`). -/
structure Chat where
  id : String
  title : String
  history : List Message
deriving Repr, DecidableEq

/-- chat.js lines 44-47: the fixed welcome message for new chats. -/
def WELCOME_MESSAGE : Message :=
  { role := "assistant"
    content := "Hello! I'm OSS-120b, an AI model from OpenAI (similar to ChatGPT, but smaller, and open-source!) How can I help you today?" }

/-- The client's global mutable state plus its browser environment. -/
structure AppState where
  /-- global `chats` array -/
  chats : List Chat
  /-- global `currentChatId` (nullable string) -/
  currentChatId : Option String
  /-- global `currentChatHistory` (aliases the active chat's history array) -/
  currentChatHistory : List Message
  /-- `localStorage` key `oss120b_chats`, holding a serialised registry -/
  store : Option (List Chat)
  /-- global `isProcessing` flag -/
  isProcessing : Bool
  /-- the rendered message list (`#chat-messages` contents, as messages) -/
  ui : List Message
  /-- everything passed to `console.error` -/
  logs : List String
deriving Repr, DecidableEq

/-- JavaScript truthiness of a nullable string (`null`, `undefined` and `""`
are falsy). -/
def jsTruthyOptStr : Option String → Bool
  | none => false
  | some s => s != ""

/-- JavaScript `s.trim()`: strip leading and trailing whitespace. -/
def jsTrim (s : String) : String :=
  String.mk
    (((s.data.dropWhile Char.isWhitespace).reverse.dropWhile
        Char.isWhitespace).reverse)

/-- Split a character list at every newline (helper for `jsSplitNewline`). -/
def splitNewlineAux : List Char → List Char → List String
  | [], acc => [String.mk acc.reverse]
  | c :: cs, acc =>
      if c = '\n' then String.mk acc.reverse :: splitNewlineAux cs []
      else splitNewlineAux cs (c :: acc)

/-- JavaScript `s.split("\n")` (the separator used at chat.js line 153). -/
def jsSplitNewline (s : String) : List String :=
  splitNewlineAux s.data []

/-- Substring occurrence scan (helper for `strIncludes`). -/
def strIncludesAux (needle : List Char) : List Char → Bool
  | [] => needle.isEmpty
  | c :: cs => needle.isPrefixOf (c :: cs) || strIncludesAux needle cs

/-- JavaScript `haystack.includes(needle)`. -/
def strIncludes (haystack needle : String) : Bool :=
  strIncludesAux needle.data haystack.data

/-- Rewrite the first list element satisfying `p` with `f` (models a JS
mutation through an alias into an array of objects). -/
def updateFirst (p : α → Bool) (f : α → α) : List α → List α
  | [] => []
  | a :: t => if p a then f a :: t else a :: updateFirst p f t

/-- chat.js lines 260-266 `saveChats`: serialise the whole registry into
`localStorage`; a quota failure (`quotaOk = false`) is caught and only
logged. -/
def saveChats (quotaOk : Bool) (s : AppState) : AppState :=
  if quotaOk then { s with store := some s.chats }
  else { s with logs := s.logs ++ ["Failed to save chats to localStorage:"] }

/-- chat.js lines 272-285 `loadAllChats`: deserialise the registry, dropping
entries whose `id` or `title` is falsy (`Array.isArray(history)` always
holds for a value serialised from this data model); returns `[]` and leaves
the global untouched when the key is absent. -/
def loadAllChats (s : AppState) : List Chat × AppState :=
  match s.store with
  | some stored =>
      let cs := stored.filter fun c => c.id != "" && c.title != ""
      (cs, { s with chats := cs })
  | none => ([], s)

/-- chat.js lines 291-299 `saveChat`: upsert by id into `chats`, then
persist everything. -/
def saveChat (chat : Chat) (quotaOk : Bool) (s : AppState) : AppState :=
  let s' :=
    match s.chats.findIdx? (fun c => c.id == chat.id) with
    | some i => { s with chats := s.chats.set i chat }
    | none => { s with chats := s.chats ++ [chat] }
  saveChats quotaOk s'

/-- chat.js lines 306-319 `deleteChat`: splice out the first chat with the
given id, persist, and clear the current pointer when it pointed at the
deleted id; returns whether anything was removed. -/
def deleteChat (chatId : String) (quotaOk : Bool) (s : AppState) :
    Bool × AppState :=
  match s.chats.findIdx? (fun c => c.id == chatId) with
  | some i =>
      let s1 := { s with chats := s.chats.eraseIdx i }
      let s2 := saveChats quotaOk s1
      let s3 :=
        if s2.currentChatId == some chatId then
          { s2 with currentChatId := none, currentChatHistory := [] }
        else s2
      (true, s3)
  | none => (false, s)

/-- chat.js lines 325-333 `setCurrentChat`: point `currentChatId` and the
cached `currentChatHistory` reference at the first chat with the given id;
returns whether the id was found. -/
def setCurrentChat (chatId : String) (s : AppState) : Bool × AppState :=
  match s.chats.find? (fun c => c.id == chatId) with
  | some chat =>
      (true, { s with currentChatId := some chatId
                      currentChatHistory := chat.history })
  | none => (false, s)

/-- chat.js lines 339-341 `getCurrentChat` (note the truthiness test on
`currentChatId`). -/
def getCurrentChat (s : AppState) : Option Chat :=
  if jsTruthyOptStr s.currentChatId then
    match s.currentChatId with
    | some cid => s.chats.find? (fun c => c.id == cid)
    | none => none
  else none

/-- chat.js lines 401-413 `renderChatHistory`: clear the message area and
re-render the whole current history. -/
def renderChatHistory (s : AppState) : AppState :=
  { s with ui := s.currentChatHistory }

/-- chat.js lines 363-377 `createNewChat`: append a fresh session seeded
with a deep copy of the welcome message, persist, and make it current.
The generated id (`Date.now()` + random suffix) is the explicit
`newChatId` argument. -/
def createNewChat (newChatId : String) (quotaOk : Bool) (s : AppState) :
    String × AppState :=
  let newChat : Chat :=
    { id := newChatId, title := "New Chat", history := [WELCOME_MESSAGE] }
  let s1 := { s with chats := s.chats ++ [newChat] }
  let s2 := saveChats quotaOk s1
  let s3 := (setCurrentChat newChatId s2).2
  (newChatId, renderChatHistory s3)

/-- chat.js lines 383-396 `switchChat`: make the target current, then
(conditionally) save the previous chat.  Note the source order: by the time
the guard `currentChatId && currentChatId !== chatId` runs,
`setCurrentChat` has already overwritten `currentChatId` with `chatId`. -/
def switchChat (chatId : String) (quotaOk : Bool) (s : AppState) : AppState :=
  match setCurrentChat chatId s with
  | (false, s1) => s1
  | (true, s1) =>
      let s2 :=
        if jsTruthyOptStr s1.currentChatId && s1.currentChatId != some chatId
        then
          match getCurrentChat s1 with
          | some prevChat =>
              saveChat { prevChat with history := s1.currentChatHistory }
                quotaOk s1
          | none => s1
        else s1
      renderChatHistory s2

/-- chat.js line 429: the sidebar preview string of one chat. -/
def chatPreview (chat : Chat) : String :=
  match chat.history with
  | _ :: second :: _ => (second.content.take 50) ++ "..."
  | _ => "No messages yet"

/-- One sidebar entry produced by `updateChatList`. -/
structure ChatListItem where
  chatId : String
  title : String
  preview : String
  isActive : Bool
deriving Repr, DecidableEq

/-- chat.js lines 418-445 `updateChatList` as a pure projection from the
state to the sidebar list. -/
def chatListItems (s : AppState) : List ChatListItem :=
  s.chats.map fun chat =>
    { chatId := chat.id
      title := chat.title
      preview := chatPreview chat
      isActive := s.currentChatId == some chat.id }

/-- chat.js lines 451-464 `deleteChatHandler`: after a confirmed delete,
self-heal the active pointer — recreate a session when none remain
(the fresh id is `freshId`), otherwise fall back to the first chat when no
current chat is set. -/
def deleteChatHandler (chatId : String) (confirmed : Bool) (freshId : String)
    (quotaOk : Bool) (s : AppState) : AppState :=
  if confirmed then
    let s1 := (deleteChat chatId quotaOk s).2
    if s1.chats.length == 0 then
      (createNewChat freshId quotaOk s1).2
    else if !(jsTruthyOptStr s1.currentChatId) then
      match s1.chats with
      | c :: _ => renderChatHistory (setCurrentChat c.id s1).2
      | [] => s1
    else s1
  else s

/-!
## JSON values and the response-processing logic of `sendMessage`

`JSON.parse` is a platform primitive; the conversation controller is
parametrised by an arbitrary `jsonParse : String → Option Json` (`none`
models a thrown `SyntaxError`).
-/

/-- A JavaScript JSON value (numbers restricted to integers; no claim
involves fractional numbers). -/
inductive Json where
  | null
  | bool (b : Bool)
  | num (n : Int)
  | str (s : String)
  | arr (items : List Json)
  | obj (fields : List (String × Json))
deriving Repr

/-- Property access `j.k` on a JSON value: defined field lookup on objects,
`undefined` (`none`) otherwise. -/
def Json.getField (j : Json) (k : String) : Option Json :=
  match j with
  | .obj fields => (fields.find? (fun f => f.1 == k)).map (fun f => f.2)
  | _ => none

/-- JavaScript truthiness of a JSON value. -/
def Json.truthy : Json → Bool
  | .null => false
  | .bool b => b
  | .num n => n != 0
  | .str s => s != ""
  | .arr _ => true
  | .obj _ => true

/-- `typeof v === "object"` for a JSON value. -/
def Json.typeofIsObject : Json → Bool
  | .null => true
  | .obj _ => true
  | .arr _ => true
  | _ => false

/-- `v === str` strict equality against a string literal. -/
def Json.isStrEq (j : Json) (v : String) : Bool :=
  match j with
  | .str s => s == v
  | _ => false

/-- `typeof j.k === "string"`. -/
def Json.fieldIsString (j : Json) (k : String) : Bool :=
  match j.getField k with
  | some (.str _) => true
  | _ => false

/-- `j.k === v` for a string literal `v`. -/
def Json.fieldStrEq (j : Json) (k v : String) : Bool :=
  match j.getField k with
  | some x => x.isStrEq v
  | none => false

mutual

/-- JavaScript `String(v)` coercion of a JSON value (an array joins its
elements with commas, an object prints `[object Object]`). -/
def Json.jsStringOf : Json → String
  | .null => "null"
  | .bool b => if b then "true" else "false"
  | .num n => toString n
  | .str s => s
  | .obj _ => "[object Object]"
  | .arr items => Json.jsStringItems items

/-- Comma join of coerced array elements, for `Json.jsStringOf`. -/
def Json.jsStringItems : List Json → String
  | [] => ""
  | [x] => Json.jsStringOf x
  | x :: y :: xs => Json.jsStringOf x ++ "," ++ Json.jsStringItems (y :: xs)

end

/-- chat.js lines 143-144: `contentType && contentType.includes("text/event-stream")`. -/
def contentTypeIsStream : Option String → Bool
  | some ct => strIncludes ct "text/event-stream"
  | none => false

/-- chat.js lines 154-170, one loop iteration: skip blank lines; parseable
lines contribute their truthy `response` field (string-coerced), lines that
fail to parse contribute their raw text. -/
def processLine (jsonParse : String → Option Json) (acc : String)
    (line : String) : String :=
  if jsTrim line == "" then acc
  else
    match jsonParse line with
    | some jsonData =>
        match jsonData.getField "response" with
        | some v => if v.truthy then acc ++ v.jsStringOf else acc
        | none => acc
    | none => acc ++ line

/-- chat.js line 153 + the line loop: one decoded chunk is split on
newlines and folded line by line. -/
def processChunk (jsonParse : String → Option Json) (acc : String)
    (chunk : String) : String :=
  (jsSplitNewline chunk).foldl (processLine jsonParse) acc

/-- chat.js lines 146-171: the whole streaming read loop, starting from the
empty accumulator. -/
def streamText (jsonParse : String → Option Json)
    (chunks : List String) : String :=
  chunks.foldl (processChunk jsonParse) ""

/-- chat.js line 178: `item.type === "message" && item.role === "assistant"`. -/
def isAssistantOutputItem (item : Json) : Bool :=
  item.fieldStrEq "type" "message" && item.fieldStrEq "role" "assistant"

/-- chat.js line 183: `c.type === "output_text" && typeof c.text === "string"`. -/
def isOutputTextString (c : Json) : Bool :=
  c.fieldStrEq "type" "output_text" && c.fieldIsString "text"

/-- chat.js lines 175-191: resolve the assistant text from a non-streaming
JSON body. -/
def resolveResponseText (data : Json) : String :=
  if data.truthy && data.typeofIsObject
      && (match data.getField "output" with
          | some (.arr _) => true
          | _ => false) then
    let output :=
      match data.getField "output" with
      | some (.arr items) => items
      | _ => []
    match output.find? isAssistantOutputItem with
    | some assistantMsg =>
        match assistantMsg.getField "content" with
        | some (.arr content) =>
            match content.find? isOutputTextString with
            | some textObj =>
                match textObj.getField "text" with
                | some (.str t) => t
                | _ => "[No response text found]"
            | none => "[No response text found]"
        | _ => "[No assistant message found]"
    | none => "[No assistant message found]"
  else data.jsStringOf

/-- The outcome of the single `fetch("/api/chat", ...)` call: either the
promise rejects, or a response arrives with a status flag, a content type
and a body byte stream (decoded to text chunks). -/
inductive NetResult where
  | netThrow (err : String)
  | resp (ok : Bool) (contentType : Option String) (chunks : List String)
deriving Repr

/-- chat.js line 211: the fixed user-visible failure text. -/
def FAILURE_MESSAGE : String :=
  "Sorry, there was an error processing your request."

/-- chat.js lines 207-212, the `catch` block: log the error, show the fixed
failure message; the history is NOT touched here. -/
def catchHandler (err : String) (s : AppState) : AppState :=
  { s with logs := s.logs ++ [err]
           ui := s.ui ++ [{ role := "assistant", content := FAILURE_MESSAGE }] }

/-- `currentChatHistory.push(m)`: appends to the cached history array and —
because that array is aliased by the chat `setCurrentChat` selected it from
— to the history of the first chat whose id is `currentChatId`. -/
def pushCurrentHistory (m : Message) (s : AppState) : AppState :=
  let h := s.currentChatHistory ++ [m]
  let chats' :=
    match s.currentChatId with
    | some cid =>
        updateFirst (fun c => c.id == cid) (fun c => { c with history := h })
          s.chats
    | none => s.chats
  { s with currentChatHistory := h, chats := chats' }

/-- chat.js lines 94-100 and 200-206, the auto-save block:
`if (currentChatId) { const c = getCurrentChat(); if (c) { c.history = currentChatHistory; saveChat(c); } }`. -/
def autoSaveCurrent (quotaOk : Bool) (s : AppState) : AppState :=
  if jsTruthyOptStr s.currentChatId then
    match getCurrentChat s with
    | some currentChat =>
        saveChat { currentChat with history := s.currentChatHistory }
          quotaOk s
    | none => s
  else s

/-- chat.js lines 196-206: on success, render the resolved text, append the
assistant message to the history and auto-save. -/
def finishSuccess (responseText : String) (quotaOk : Bool) (s : AppState) :
    AppState :=
  let s1 := { s with ui := s.ui ++ [{ role := "assistant", content := responseText }] }
  let s2 := pushCurrentHistory { role := "assistant", content := responseText } s1
  autoSaveCurrent quotaOk s2

/-- What one call to `sendMessage` produced: the new state, whether the
network was reached, and the request body's `input` field if so. -/
structure SendResult where
  state : AppState
  networkCalled : Bool
  requestInput : Option String
deriving Repr, DecidableEq

/-- chat.js lines 72-226 `sendMessage`: the whole send/receive exchange.
`inputValue` is the textarea content, `net` the fetch outcome, `quotaOk`
whether `localStorage` writes succeed.  The `finally` block is the trailing
`isProcessing := false` on every path past the guard. -/
def sendMessage (jsonParse : String → Option Json) (inputValue : String)
    (net : NetResult) (quotaOk : Bool) (s : AppState) : SendResult :=
  let message := jsTrim inputValue
  if message == "" || s.isProcessing then
    { state := s, networkCalled := false, requestInput := none }
  else
    let s1 := { s with isProcessing := true }
    let s2 := { s1 with ui := s1.ui ++ [{ role := "user", content := message }] }
    let s3 := pushCurrentHistory { role := "user", content := message } s2
    let s4 := autoSaveCurrent quotaOk s3
    let requestInput :=
      String.intercalate "\n" (s4.currentChatHistory.map (fun m => m.content))
    let s5 :=
      match net with
      | .netThrow err => catchHandler err s4
      | .resp ok contentType chunks =>
          if !ok then catchHandler "Failed to get response" s4
          else if contentTypeIsStream contentType then
            finishSuccess (streamText jsonParse chunks) quotaOk s4
          else
            match jsonParse (String.join chunks) with
            | none => catchHandler "SyntaxError: unexpected token" s4
            | some data => finishSuccess (resolveResponseText data) quotaOk s4
    { state := { s5 with isProcessing := false }
      networkCalled := true
      requestInput := some requestInput }

/-!
## Backend proxy worker (`handleChatRequest`)

The worker's `handleChatRequest` is modelled for a request whose JSON body
parsed successfully (the claim about it is scoped to parsed bodies; a body
that fails to parse is caught upstream and answered with status 500).  The
model-inference call `env.AI.run` is a platform boundary whose outcome is
the explicit `ai` argument.
-/

/-- The parsed request body destructured by the worker:
`const { input, reasoning } = body`.  `input = none` models an absent or
`null` field; a present field is an arbitrary JSON value (the declared type
is `string | any[]`, but the falsiness test is performed on the runtime
value). -/
structure ParsedChatBody where
  input : Option Json
  reasoning : Option Json

/-- JavaScript truthiness of a possibly-absent JSON value (for the
worker's `if (!input)` test). -/
def jsTruthyOptJson : Option Json → Bool
  | none => false
  | some v => v.truthy

/-- The outcome of `env.AI.run` with `returnRawResponse: true`: a raw
`Response` (status, content type, body text), a non-`Response` value, or a
thrown error. -/
inductive AiOutcome where
  | raw (status : Nat) (contentType : Option String) (bodyText : String)
  | value (v : Json)
  | threw (err : String)

/-- What the worker answered with, plus whether `env.AI.run` was reached. -/
structure WorkerResult where
  status : Nat
  contentType : Option String
  body : String
  modelInvoked : Bool
deriving Repr, DecidableEq

/-- worker lines 72-75: the 400 body
`JSON.stringify({ error: 'Missing required "input" field.' })`. -/
def missingInputBody : String :=
  "\x7b\"error\":\"Missing required \\\"input\\\" field.\"\x7d"

/-- worker lines 122-128: the 500 body on a thrown error. -/
def failedRequestBody : String :=
  "\x7b\"error\":\"Failed to process request\"\x7d"

/-- worker lines 55-129 `handleChatRequest`, for a successfully parsed
body: reject a falsy `input` with 400 before any model call; otherwise
forward to the model and relay its response (event-stream passed through,
anything else re-labelled `application/json`); a thrown model error is
caught into a 500. -/
def handleChatRequest (body : ParsedChatBody) (ai : AiOutcome) :
    WorkerResult :=
  if !(jsTruthyOptJson body.input) then
    { status := 400
      contentType := some "application/json"
      body := missingInputBody
      modelInvoked := false }
  else
    match ai with
    | .threw _ =>
        { status := 500
          contentType := some "application/json"
          body := failedRequestBody
          modelInvoked := true }
    | .raw status contentType bodyText =>
        if contentTypeIsStream contentType then
          { status := status
            contentType := contentType
            body := bodyText
            modelInvoked := true }
        else
          { status := status
            contentType := some "application/json"
            body := bodyText
            modelInvoked := true }
    | .value v =>
        { status := 200
          contentType := some "application/json"
          body := v.jsStringOf
          modelInvoked := true }

/-!
## Concrete witness environment

`demoParse` is a concrete stand-in for the platform `JSON.parse`, defined
only on the handful of literal strings the specification's scenarios
exercise; every theorem that involves parsing is parametric in the parse
function and only assumes its value on the lines at hand.
-/

/-- A concrete `JSON.parse` fragment for the scenario inputs. -/
def demoParse (s : String) : Option Json :=
  if s == "\x7b\"response\":\"He\"\x7d" then
    some (.obj [("response", .str "He")])
  else if s == "\x7b\"response\":\"llo\"\x7d" then
    some (.obj [("response", .str "llo")])
  else
    none

/-!
## Session-management operation sequences

For the registry invariant, the user-driven create/delete operations are
abstracted as a list of operations folded over the state.  A `delete`
records the user's answer to `confirm(...)` and the id that `createNewChat`
would generate if the registry self-heals by recreating a session.
-/

/-- One user-level session-management operation. -/
inductive SessionOp where
  | create (newId : String)
  | delete (chatId : String) (confirmed : Bool) (freshId : String)
deriving Repr, DecidableEq

/-- Execute one operation. -/
def applyOp (quotaOk : Bool) (s : AppState) : SessionOp → AppState
  | .create newId => (createNewChat newId quotaOk s).2
  | .delete chatId confirmed freshId =>
      deleteChatHandler chatId confirmed freshId quotaOk s

/-- Execute a sequence of operations. -/
def applyOps (quotaOk : Bool) (s : AppState) (ops : List SessionOp) : AppState :=
  ops.foldl (applyOp quotaOk) s

/-- The registry invariant: a non-empty registry has exactly one session id
marked active, i.e. `currentChatId` designates exactly one id carried by
some session. -/
def activeOk (s : AppState) : Prop :=
  s.chats ≠ [] →
    ∃! cid, s.currentChatId = some cid
      ∧ s.chats.any (fun c => c.id == cid) = true

/-- What one non-blank streamed line contributes to the accumulated text
(the specification-side reading of chat.js lines 156-169). -/
def lineContribution (jsonParse : String → Option Json) (line : String) :
    String :=
  match jsonParse line with
  | some jsonData =>
      match jsonData.getField "response" with
      | some v => if v.truthy then v.jsStringOf else ""
      | none => ""
  | none => line

/-!
## Concrete states used by scenario witnesses and counterexamples
-/

/-- Chat `A` as freshly created. -/
def chatA0 : Chat := { id := "A", title := "New Chat", history := [WELCOME_MESSAGE] }

/-- Chat `A` after its user typed `hi` (in memory). -/
def chatA : Chat :=
  { chatA0 with history := [WELCOME_MESSAGE, { role := "user", content := "hi" }] }

/-- Chat `B` as freshly created. -/
def chatB : Chat := { id := "B", title := "New Chat", history := [WELCOME_MESSAGE] }

/-- Two sessions, `A` active; the persisted copy of `A` lags behind its
in-memory history by one message. -/
def demoState : AppState :=
  { chats := [chatA, chatB]
    currentChatId := some "A"
    currentChatHistory := chatA.history
    store := some [chatA0, chatB]
    isProcessing := false
    ui := []
    logs := [] }

/-- An empty client state (first load, nothing persisted). -/
def emptyState : AppState :=
  { chats := [], currentChatId := none, currentChatHistory := []
    store := none, isProcessing := false, ui := [], logs := [] }

/-!
## Helper lemmas on list search primitives
-/

/-- `find?` succeeds whenever `any` holds, and its result satisfies the
predicate. -/
theorem find?_isSome_of_any {α} {p : α → Bool} {l : List α}
    (h : l.any p = true) : ∃ x, l.find? p = some x ∧ p x = true := by
  have h' : ∃ x ∈ l, p x = true := List.any_eq_true.mp h
  have hs : (l.find? p).isSome = true := List.find?_isSome.mpr h'
  rcases Option.isSome_iff_exists.mp hs with ⟨x, hx⟩
  exact ⟨x, hx, List.find?_some hx⟩

/-- Searching a list whose every element fails `p`, extended by one
element satisfying `p`, finds the appended element. -/
theorem find?_append_singleton {α} {p : α → Bool} {l : List α} {x : α}
    (h : ∀ a ∈ l, p a = false) (hx : p x = true) :
    (l ++ [x]).find? p = some x := by
  induction l with
  | nil => exact List.find?_cons_of_pos _ hx
  | cons a t ih =>
      have ha : ¬ p a = true := by simp [h a (List.mem_cons_self a t)]
      rw [List.cons_append, List.find?_cons_of_neg _ ha]
      exact ih fun b hb => h b (List.mem_cons_of_mem _ hb)

/-- `findIdx?` on a cons cell, stated with a zero start index. -/
theorem findIdx?_cons0 {α} (p : α → Bool) (a : α) (t : List α) :
    (a :: t).findIdx? p
      = if p a then some 0 else (t.findIdx? p).map (· + 1) := by
  rw [List.findIdx?_cons, List.findIdx?_succ]

/-- Removing the element found by `findIdx? p` cannot falsify `any q` when
elements satisfying `p` never satisfy `q`. -/
theorem any_eraseIdx_of_findIdx? {α} (p q : α → Bool)
    (hpq : ∀ x, p x = true → q x = false) :
    ∀ (l : List α) (i : Nat), l.findIdx? p = some i →
      l.any q = true → (l.eraseIdx i).any q = true := by
  intro l
  induction l with
  | nil => intro i hi; simp [List.findIdx?] at hi
  | cons a t ih =>
      intro i hi hq
      rw [findIdx?_cons0] at hi
      by_cases hpa : p a = true
      · rw [if_pos hpa] at hi
        cases hi
        rw [List.eraseIdx_cons_zero]
        have hqa : q a = false := hpq a hpa
        simpa [hqa] using hq
      · rw [if_neg hpa] at hi
        rcases Option.map_eq_some'.mp hi with ⟨j, hj, rfl⟩
        rw [List.eraseIdx_cons_succ]
        rw [List.any_cons] at hq ⊢
        rcases (Bool.or_eq_true _ _).mp hq with hqa | hqt
        · simp [hqa]
        · simp [ih j hj hqt]

/-!
## Claim theorems
-/

/-- C4: for every input that is empty or whitespace-only after trimming,
and for every send attempted while another send is in progress,
`sendMessage` is a no-op — the state (histories, store, UI, logs) is
unchanged and no network call is issued. -/
theorem c4_sendMessage_noop (jsonParse : String → Option Json)
    (inputValue : String) (net : NetResult) (quotaOk : Bool) (s : AppState)
    (h : jsTrim inputValue = "" ∨ s.isProcessing = true) :
    sendMessage jsonParse inputValue net quotaOk s
      = { state := s, networkCalled := false, requestInput := none } := by
  unfold sendMessage
  rcases h with h | h
  · rw [h]; simp
  · simp [h]

/-- C4 witness: a whitespace-only input on the two-session demo state is
rejected without any state change. -/
theorem c4_sendMessage_noop_witness :
    (jsTrim "  " = "" ∨ demoState.isProcessing = true)
      ∧ sendMessage demoParse "  " (.netThrow "boom") true demoState
          = { state := demoState, networkCalled := false, requestInput := none } :=
  ⟨Or.inl (by decide),
    c4_sendMessage_noop demoParse "  " (.netThrow "boom") true demoState
      (Or.inl (by decide))⟩

/-- C7: `createNewChat` returns the id of a session newly appended to the
registry, seeded with exactly the welcome message, marks it active, and
persists the registry; from an empty registry the result has length 1. -/
theorem c7_createNewChat_spec (newId : String) (s : AppState)
    (hfresh : ∀ c ∈ s.chats, c.id ≠ newId) :
    (createNewChat newId true s).1 = newId
      ∧ (createNewChat newId true s).2.chats
          = s.chats
              ++ [{ id := newId, title := "New Chat", history := [WELCOME_MESSAGE] }]
      ∧ (createNewChat newId true s).2.currentChatId = some newId
      ∧ (createNewChat newId true s).2.currentChatHistory = [WELCOME_MESSAGE]
      ∧ (createNewChat newId true s).2.store
          = some (s.chats
              ++ [{ id := newId, title := "New Chat", history := [WELCOME_MESSAGE] }])
      ∧ (s.chats = [] → (createNewChat newId true s).2.chats.length = 1) := by
  have hfind :
      (s.chats
        ++ [({ id := newId, title := "New Chat", history := [WELCOME_MESSAGE] } : Chat)]).find?
          (fun c => c.id == newId)
        = some { id := newId, title := "New Chat", history := [WELCOME_MESSAGE] } := by
    apply find?_append_singleton
    · intro a ha
      exact beq_eq_false_iff_ne.mpr (hfresh a ha)
    · simp
  refine ⟨rfl, ?_, ?_, ?_, ?_, ?_⟩ <;>
    simp [createNewChat, saveChats, setCurrentChat, renderChatHistory, hfind]

/-- C7 witness: creating `chat_1` in the empty state yields a one-session
registry with `chat_1` active. -/
theorem c7_createNewChat_spec_witness :
    (∀ c ∈ emptyState.chats, c.id ≠ "chat_1")
      ∧ (createNewChat "chat_1" true emptyState).2.currentChatId = some "chat_1"
      ∧ (createNewChat "chat_1" true emptyState).2.chats.length = 1 :=
  ⟨by simp [emptyState],
    (c7_createNewChat_spec "chat_1" emptyState (by simp [emptyState])).2.2.1,
    (c7_createNewChat_spec "chat_1" emptyState (by simp [emptyState])).2.2.2.2.2 rfl⟩

/-- C8: persisting a registry of well-formed sessions with `saveChats` and
reading it back with `loadAllChats` yields the same registry, both as the
returned value and as the in-memory registry. -/
theorem c8_save_load_roundtrip (s : AppState)
    (hwf : ∀ c ∈ s.chats, c.id ≠ "" ∧ c.title ≠ "") :
    (loadAllChats (saveChats true s)).1 = s.chats
      ∧ (loadAllChats (saveChats true s)).2.chats = s.chats := by
  have hf : s.chats.filter (fun c => c.id != "" && c.title != "") = s.chats := by
    rw [List.filter_eq_self]
    intro a ha
    rcases hwf a ha with ⟨h1, h2⟩
    simp [h1, h2]
  constructor <;> simp [loadAllChats, saveChats, hf]

/-- C8 witness: the two-session demo registry survives a save-then-load
cycle unchanged. -/
theorem c8_save_load_roundtrip_witness :
    (∀ c ∈ demoState.chats, c.id ≠ "" ∧ c.title ≠ "")
      ∧ (loadAllChats (saveChats true demoState)).1 = demoState.chats :=
  ⟨by decide, (c8_save_load_roundtrip demoState (by decide)).1⟩

/-- C10: a parsed `POST /api/chat` body whose `input` field is missing or
the empty string is answered with status 400 and a JSON error body, and
the model-inference call is never reached. -/
theorem c10_missing_input_rejected (body : ParsedChatBody) (ai : AiOutcome)
    (h : body.input = none ∨ body.input = some (Json.str "")) :
    handleChatRequest body ai
      = { status := 400, contentType := some "application/json",
          body := missingInputBody, modelInvoked := false } := by
  unfold handleChatRequest
  rcases h with h | h <;> simp [h, jsTruthyOptJson, Json.truthy]

/-- C10 witness: a body without `input` is rejected with 400 and no model
call. -/
theorem c10_missing_input_rejected_witness :
    (({ input := none, reasoning := none } : ParsedChatBody).input = none
        ∨ ({ input := none, reasoning := none } : ParsedChatBody).input
            = some (Json.str ""))
      ∧ handleChatRequest { input := none, reasoning := none } (.value .null)
          = { status := 400, contentType := some "application/json",
              body := missingInputBody, modelInvoked := false } :=
  ⟨Or.inl rfl,
    c10_missing_input_rejected { input := none, reasoning := none }
      (.value .null) (Or.inl rfl)⟩

/-- A session whose second history entry is the short user message `Hi`. -/
def previewChat : Chat :=
  { id := "p", title := "T"
    history := [WELCOME_MESSAGE, { role := "user", content := "Hi" }] }

/-- A state showing `previewChat` in the sidebar. -/
def previewState : AppState :=
  { chats := [previewChat], currentChatId := some "p"
    currentChatHistory := previewChat.history, store := none
    isProcessing := false, ui := [], logs := [] }

set_option maxRecDepth 4096 in
/-- C9 counterexample: the sidebar preview of `previewChat` is `"Hi..."`,
while the first 50 characters of the second history entry's content are
exactly `"Hi"` — the displayed preview is NOT that prefix, refuting the
claim as stated (the code appends an ellipsis). -/
theorem c9_preview_counterexample :
    (chatListItems previewState).map (fun item => item.preview) = ["Hi..."]
      ∧ ("Hi" : String).take 50 = "Hi"
      ∧ ("Hi..." : String) ≠ "Hi" :=
  ⟨by decide, by decide, by decide⟩

/-- C9 (amended): the sidebar preview of every listed session is the first
50 characters of the second history entry's content FOLLOWED BY `"..."`
when the history has at least 2 messages, and the fixed placeholder
`"No messages yet"` otherwise. -/
theorem c9_preview_amended (s : AppState) :
    (chatListItems s).map (fun item => item.preview) = s.chats.map chatPreview
      ∧ (∀ (chat : Chat) (m1 m2 : Message) (rest : List Message),
          chat.history = m1 :: m2 :: rest →
            chatPreview chat = m2.content.take 50 ++ "...")
      ∧ (∀ chat : Chat, chat.history.length < 2 →
          chatPreview chat = "No messages yet") := by
  refine ⟨?_, ?_, ?_⟩
  · simp [chatListItems]
  · intro chat m1 m2 rest h
    simp [chatPreview, h]
  · intro chat h
    cases hh : chat.history with
    | nil => simp [chatPreview, hh]
    | cons m1 t =>
        cases t with
        | nil => simp [chatPreview, hh]
        | cons m2 rest => rw [hh] at h; simp at h; omega

/-- C9 witness: the amended statement evaluated on `previewChat` (two
messages) and on a fresh one-message chat. -/
theorem c9_preview_amended_witness :
    previewChat.history
        = [WELCOME_MESSAGE, { role := "user", content := "Hi" }]
      ∧ chatPreview previewChat = ("Hi" : String).take 50 ++ "..."
      ∧ chatA0.history.length < 2
      ∧ chatPreview chatA0 = "No messages yet" :=
  ⟨rfl,
    (c9_preview_amended previewState).2.1 previewChat WELCOME_MESSAGE
      { role := "user", content := "Hi" } [] rfl,
    by decide,
    (c9_preview_amended previewState).2.2 chatA0 (by decide)⟩

/-- The §8 scenario body carrying the assistant text `Hi there`. -/
def hiThereBody : Json :=
  .obj [("output", .arr [.obj
    [("type", .str "message"), ("role", .str "assistant"),
     ("content", .arr [.obj
       [("type", .str "output_text"), ("text", .str "Hi there")]])]])]

/-- A body whose output array holds no assistant message item. -/
def noAssistantBody : Json := .obj [("output", .arr [])]

/-- A body whose assistant item has an empty content array. -/
def emptyContentBody : Json :=
  .obj [("output", .arr [.obj
    [("type", .str "message"), ("role", .str "assistant"),
     ("content", .arr [])]])]

/-- A body whose assistant item lacks a `content` field entirely. -/
def missingContentBody : Json :=
  .obj [("output", .arr [.obj
    [("type", .str "message"), ("role", .str "assistant")]])]

/-- C5 counterexample: `missingContentBody` has an `output` array whose
first element matches `type == "message" && role == "assistant"`, yet no
content element matches; the code resolves it to
`"[No assistant message found]"`, not the `"[No response text found]"` the
claim requires for a matching output element. -/
theorem c5_resolve_counterexample :
    missingContentBody.getField "output"
        = some (.arr [.obj [("type", .str "message"), ("role", .str "assistant")]])
      ∧ isAssistantOutputItem
          (.obj [("type", .str "message"), ("role", .str "assistant")]) = true
      ∧ resolveResponseText missingContentBody = "[No assistant message found]"
      ∧ ("[No assistant message found]" : String) ≠ "[No response text found]" :=
  ⟨rfl, rfl, rfl, by decide⟩

/-- C5 (amended): for a body with an `output` array, the resolved text is
the string `text` of the first content element with type `output_text` and
a string-typed `text`, inside the first output element with type `message`
and role `assistant`, provided that element's `content` is an array; if no
output element matches, or the matching element's `content` is not an
array, the text is `"[No assistant message found]"`; if the content array
has no matching element the text is `"[No response text found]"`; the
resolution is total (never fails). -/
theorem c5_resolve_amended (fields : List (String × Json)) (items : List Json)
    (hout : (Json.obj fields).getField "output" = some (Json.arr items)) :
    (items.find? isAssistantOutputItem = none →
        resolveResponseText (Json.obj fields) = "[No assistant message found]")
      ∧ (∀ a, items.find? isAssistantOutputItem = some a →
          ((∀ content, a.getField "content" ≠ some (Json.arr content)) →
              resolveResponseText (Json.obj fields)
                = "[No assistant message found]")
          ∧ (∀ content, a.getField "content" = some (Json.arr content) →
              (content.find? isOutputTextString = none →
                  resolveResponseText (Json.obj fields)
                    = "[No response text found]")
              ∧ (∀ t txt, content.find? isOutputTextString = some t →
                  t.getField "text" = some (Json.str txt) →
                  resolveResponseText (Json.obj fields) = txt)))
      ∧ resolveResponseText hiThereBody = "Hi there"
      ∧ resolveResponseText noAssistantBody = "[No assistant message found]"
      ∧ resolveResponseText emptyContentBody = "[No response text found]" := by
  refine ⟨?_, ?_, rfl, rfl, rfl⟩
  · intro hfind
    simp [resolveResponseText, hout, hfind, Json.truthy, Json.typeofIsObject]
  · intro a hfind
    constructor
    · intro hnc
      cases hc : a.getField "content" with
      | none =>
          simp [resolveResponseText, hout, hfind, hc, Json.truthy,
            Json.typeofIsObject]
      | some v =>
          cases v with
          | arr content => exact absurd hc (hnc content)
          | null =>
              simp [resolveResponseText, hout, hfind, hc, Json.truthy,
                Json.typeofIsObject]
          | bool b =>
              simp [resolveResponseText, hout, hfind, hc, Json.truthy,
                Json.typeofIsObject]
          | num n =>
              simp [resolveResponseText, hout, hfind, hc, Json.truthy,
                Json.typeofIsObject]
          | str t =>
              simp [resolveResponseText, hout, hfind, hc, Json.truthy,
                Json.typeofIsObject]
          | obj f =>
              simp [resolveResponseText, hout, hfind, hc, Json.truthy,
                Json.typeofIsObject]
    · intro content hc
      constructor
      · intro hcf
        simp [resolveResponseText, hout, hfind, hc, hcf, Json.truthy,
          Json.typeofIsObject]
      · intro t txt ht htxt
        simp [resolveResponseText, hout, hfind, hc, ht, htxt, Json.truthy,
          Json.typeofIsObject]

/-- C5 witness: the amended statement instantiated on the `Hi there`
scenario body. -/
theorem c5_resolve_amended_witness :
    (Json.obj
        [("output", Json.arr [Json.obj
          [("type", Json.str "message"), ("role", Json.str "assistant"),
           ("content", Json.arr [Json.obj
             [("type", Json.str "output_text"),
              ("text", Json.str "Hi there")]])]])]).getField "output"
      = some (Json.arr [Json.obj
          [("type", Json.str "message"), ("role", Json.str "assistant"),
           ("content", Json.arr [Json.obj
             [("type", Json.str "output_text"),
              ("text", Json.str "Hi there")]])]])
    ∧ resolveResponseText hiThereBody = "Hi there" :=
  ⟨rfl,
    (c5_resolve_amended
      [("output", Json.arr [Json.obj
        [("type", Json.str "message"), ("role", Json.str "assistant"),
         ("content", Json.arr [Json.obj
           [("type", Json.str "output_text"),
            ("text", Json.str "Hi there")]])]])]
      [Json.obj
        [("type", Json.str "message"), ("role", Json.str "assistant"),
         ("content", Json.arr [Json.obj
           [("type", Json.str "output_text"),
            ("text", Json.str "Hi there")]])]]
      rfl).2.2.1⟩

set_option maxRecDepth 8192 in
/-- C1: `switchChat` NEVER writes the persistent store — the
previous-chat save branch (chat.js lines 386-392) is dead code, because
`setCurrentChat` has already overwritten `currentChatId` with the target id
when the guard `currentChatId !== chatId` runs.  Concretely, with sessions
`A` (active, in-memory history one message ahead of its persisted copy)
and `B`, `switchChat("B")` makes `B` active but leaves the store holding
the stale copy of `A`, contradicting both the specification and the
source's own comment `// Save previous chat if it was modified`. -/
theorem c1_switchChat_never_persists :
    (∀ (chatId : String) (quotaOk : Bool) (s : AppState),
        (switchChat chatId quotaOk s).store = s.store)
      ∧ demoState.currentChatHistory = chatA.history
      ∧ (switchChat "B" true demoState).currentChatId = some "B"
      ∧ (switchChat "B" true demoState).store = some [chatA0, chatB]
      ∧ chatA0.history ≠ chatA.history := by
  refine ⟨?_, rfl, ?_, ?_, ?_⟩
  · intro chatId quotaOk s
    unfold switchChat
    cases hf : s.chats.find? (fun c => c.id == chatId) with
    | none => simp [setCurrentChat, hf]
    | some chat =>
        simp [setCurrentChat, hf, renderChatHistory, jsTruthyOptStr]
  · decide
  · decide
  · decide

/-- `pushCurrentHistory` only touches `currentChatHistory` and `chats`. -/
theorem pushCurrentHistory_ui (m : Message) (s : AppState) :
    (pushCurrentHistory m s).ui = s.ui := by
  unfold pushCurrentHistory; rfl

/-- `pushCurrentHistory` leaves the log untouched. -/
theorem pushCurrentHistory_logs (m : Message) (s : AppState) :
    (pushCurrentHistory m s).logs = s.logs := by
  unfold pushCurrentHistory; rfl

/-- `pushCurrentHistory` appends exactly `m` to the cached history. -/
theorem pushCurrentHistory_hist (m : Message) (s : AppState) :
    (pushCurrentHistory m s).currentChatHistory
      = s.currentChatHistory ++ [m] := by
  unfold pushCurrentHistory; rfl

/-- `pushCurrentHistory` leaves the store untouched. -/
theorem pushCurrentHistory_store (m : Message) (s : AppState) :
    (pushCurrentHistory m s).store = s.store := by
  unfold pushCurrentHistory; rfl

/-- The auto-save block never changes the rendered message list. -/
theorem autoSaveCurrent_ui (q : Bool) (s : AppState) :
    (autoSaveCurrent q s).ui = s.ui := by
  unfold autoSaveCurrent saveChat saveChats
  repeat' split
  all_goals simp

/-- The auto-save block never changes the cached history. -/
theorem autoSaveCurrent_hist (q : Bool) (s : AppState) :
    (autoSaveCurrent q s).currentChatHistory = s.currentChatHistory := by
  unfold autoSaveCurrent saveChat saveChats
  repeat' split
  all_goals simp

/-- The auto-save block never changes the active pointer. -/
theorem autoSaveCurrent_cid (q : Bool) (s : AppState) :
    (autoSaveCurrent q s).currentChatId = s.currentChatId := by
  unfold autoSaveCurrent saveChat saveChats
  repeat' split
  all_goals simp

/-- With the storage write succeeding, the auto-save block logs nothing. -/
theorem autoSaveCurrent_logs_true (s : AppState) :
    (autoSaveCurrent true s).logs = s.logs := by
  unfold autoSaveCurrent saveChat saveChats
  repeat' split
  all_goals simp_all

/-- C2: when the fetch promise rejects, or when the response is non-2xx
(the code throws `"Failed to get response"`), the catch block appends the
one fixed assistant failure message to the visible message list, logs the
underlying error, appends no assistant message to the session history, and
clears the sending flag; the error text itself reaches only the log.  The
fixed message is `FAILURE_MESSAGE`, independent of the error. -/
theorem c2_error_fixed_message (jsonParse : String → Option Json)
    (inputValue : String) (s : AppState) (err : String)
    (ct : Option String) (chunks : List String)
    (h1 : jsTrim inputValue ≠ "") (h2 : s.isProcessing = false) :
    ((sendMessage jsonParse inputValue (.netThrow err) true s).state.ui
        = s.ui ++ [{ role := "user", content := jsTrim inputValue },
                   { role := "assistant", content := FAILURE_MESSAGE }])
      ∧ ((sendMessage jsonParse inputValue (.netThrow err) true s).state.logs
          = s.logs ++ [err])
      ∧ ((sendMessage jsonParse inputValue (.netThrow err) true
            s).state.currentChatHistory
          = s.currentChatHistory
              ++ [{ role := "user", content := jsTrim inputValue }])
      ∧ ((sendMessage jsonParse inputValue (.netThrow err) true
            s).state.isProcessing = false)
      ∧ ((sendMessage jsonParse inputValue (.resp false ct chunks) true
            s).state.ui
          = s.ui ++ [{ role := "user", content := jsTrim inputValue },
                     { role := "assistant", content := FAILURE_MESSAGE }])
      ∧ ((sendMessage jsonParse inputValue (.resp false ct chunks) true
            s).state.logs
          = s.logs ++ ["Failed to get response"])
      ∧ ((sendMessage jsonParse inputValue (.resp false ct chunks) true
            s).state.currentChatHistory
          = s.currentChatHistory
              ++ [{ role := "user", content := jsTrim inputValue }])
      ∧ ((sendMessage jsonParse inputValue (.resp false ct chunks) true
            s).state.isProcessing = false) := by
  have hguard : ((jsTrim inputValue == "") || s.isProcessing) = false := by
    simp [h2, h1]
  refine ⟨?_, ?_, ?_, ?_, ?_, ?_, ?_, ?_⟩ <;>
    simp [sendMessage, hguard, catchHandler, pushCurrentHistory_ui,
      pushCurrentHistory_logs, pushCurrentHistory_hist, autoSaveCurrent_ui,
      autoSaveCurrent_hist, autoSaveCurrent_logs_true]

/-- C2 witness: sending `hello` on the demo state with a rejecting fetch
shows exactly the fixed failure message and logs `boom`. -/
theorem c2_error_fixed_message_witness :
    (jsTrim "hello" ≠ "" ∧ demoState.isProcessing = false)
      ∧ (sendMessage demoParse "hello" (.netThrow "boom") true demoState).state.ui
          = demoState.ui
              ++ [{ role := "user", content := jsTrim "hello" },
                  { role := "assistant", content := FAILURE_MESSAGE }]
      ∧ (sendMessage demoParse "hello" (.netThrow "boom") true
            demoState).state.logs
          = demoState.logs ++ ["boom"] :=
  ⟨⟨by decide, rfl⟩,
    (c2_error_fixed_message demoParse "hello" demoState "boom" none []
      (by decide) rfl).1,
    (c2_error_fixed_message demoParse "hello" demoState "boom" none []
      (by decide) rfl).2.1⟩

/-- `processLine` either skips a blank line or appends that line's
contribution. -/
theorem processLine_eq (jsonParse : String → Option Json) (acc line : String) :
    processLine jsonParse acc line
      = if jsTrim line == "" then acc
        else acc ++ lineContribution jsonParse line := by
  unfold processLine lineContribution
  by_cases hb : (jsTrim line == "") = true
  · simp [hb]
  · simp only [if_neg hb]
    cases hp : jsonParse line with
    | none => rfl
    | some j =>
        cases hf : j.getField "response" with
        | none => simp [hf]
        | some v => by_cases hv : v.truthy = true <;> simp [hf, hv]

/-- Folding `processLine` over a line list appends exactly the
contributions of its non-blank lines. -/
theorem foldl_processLine_filter (jsonParse : String → Option Json) :
    ∀ (lines : List String) (acc : String),
      lines.foldl (processLine jsonParse) acc
        = (lines.filter (fun l => !(jsTrim l == ""))).foldl
            (fun a l => a ++ lineContribution jsonParse l) acc := by
  intro lines
  induction lines with
  | nil => intro acc; rfl
  | cons l t ih =>
      intro acc
      rw [List.foldl_cons, List.filter_cons]
      by_cases hb : (jsTrim l == "") = true
      · simp [hb, processLine_eq, ih]
      · simp [hb, processLine_eq, ih]

/-- Folding whole chunks equals folding the flattened, blank-filtered line
sequence. -/
theorem streamText_decomposition_aux (jsonParse : String → Option Json) :
    ∀ (chunks : List String) (acc : String),
      chunks.foldl (processChunk jsonParse) acc
        = ((chunks.map jsSplitNewline).flatten.filter
              (fun l => !(jsTrim l == ""))).foldl
            (fun a l => a ++ lineContribution jsonParse l) acc := by
  intro chunks
  induction chunks with
  | nil => intro acc; rfl
  | cons c t ih =>
      intro acc
      rw [List.foldl_cons, List.map_cons, List.flatten_cons,
        List.filter_append, List.foldl_append, ih]
      unfold processChunk
      rw [foldl_processLine_filter]

/-- C6: the streaming reader accumulates, over every chunk split at
newlines and per non-blank line, the line's `response` field when the line
parses as JSON (nothing when the parsed object lacks a truthy `response`),
and the raw line verbatim when the parse fails; in particular the chunks
`\x7b"response":"He"\x7d` then `\x7b"response":"llo"\x7d` accumulate to
exactly `Hello`. -/
theorem c6_streaming_accumulation :
    (∀ (jsonParse : String → Option Json) (chunks : List String),
        streamText jsonParse chunks
          = ((chunks.map jsSplitNewline).flatten.filter
                (fun l => !(jsTrim l == ""))).foldl
              (fun a l => a ++ lineContribution jsonParse l) "")
      ∧ (∀ jsonParse : String → Option Json,
          jsonParse "\x7b\"response\":\"He\"\x7d"
              = some (.obj [("response", .str "He")]) →
          jsonParse "\x7b\"response\":\"llo\"\x7d"
              = some (.obj [("response", .str "llo")]) →
          streamText jsonParse
              ["\x7b\"response\":\"He\"\x7d\n", "\x7b\"response\":\"llo\"\x7d\n"]
            = "Hello") := by
  constructor
  · intro jsonParse chunks
    unfold streamText
    rw [streamText_decomposition_aux]
  · intro p h1 h2
    have h1s : jsSplitNewline "\x7b\"response\":\"He\"\x7d\n"
        = ["\x7b\"response\":\"He\"\x7d", ""] := by decide
    have h2s : jsSplitNewline "\x7b\"response\":\"llo\"\x7d\n"
        = ["\x7b\"response\":\"llo\"\x7d", ""] := by decide
    have hc1 : lineContribution p "\x7b\"response\":\"He\"\x7d" = "He" := by
      unfold lineContribution
      rw [h1]
      rfl
    have hc2 : lineContribution p "\x7b\"response\":\"llo\"\x7d" = "llo" := by
      unfold lineContribution
      rw [h2]
      rfl
    have hl1 : ∀ acc, processLine p acc "\x7b\"response\":\"He\"\x7d"
        = acc ++ "He" := by
      intro acc
      rw [processLine_eq, if_neg (by decide), hc1]
    have hl2 : ∀ acc, processLine p acc "\x7b\"response\":\"llo\"\x7d"
        = acc ++ "llo" := by
      intro acc
      rw [processLine_eq, if_neg (by decide), hc2]
    have hblank : ∀ acc, processLine p acc "" = acc := by
      intro acc
      rw [processLine_eq, if_pos (by decide)]
    unfold streamText
    rw [List.foldl_cons, List.foldl_cons, List.foldl_nil]
    unfold processChunk
    rw [h1s, h2s, List.foldl_cons, List.foldl_cons, List.foldl_nil,
      List.foldl_cons, List.foldl_cons, List.foldl_nil, hl1, hblank, hl2,
      hblank]
    decide

/-- C6 witness: the scenario instantiated with the concrete parse
fragment `demoParse`. -/
theorem c6_streaming_accumulation_witness :
    demoParse "\x7b\"response\":\"He\"\x7d"
        = some (.obj [("response", .str "He")])
      ∧ demoParse "\x7b\"response\":\"llo\"\x7d"
          = some (.obj [("response", .str "llo")])
      ∧ streamText demoParse
          ["\x7b\"response\":\"He\"\x7d\n", "\x7b\"response\":\"llo\"\x7d\n"]
          = "Hello" :=
  ⟨rfl, rfl, c6_streaming_accumulation.2 demoParse rfl rfl⟩

/-- Build the registry invariant from an explicit active id. -/
theorem activeOk_of (s : AppState) (cid : String)
    (h1 : s.currentChatId = some cid)
    (h2 : s.chats.any (fun c => c.id == cid) = true) : activeOk s :=
  fun _ => ⟨cid, ⟨h1, h2⟩, fun y hy => by
    rw [h1] at hy
    exact (Option.some.inj hy.1).symm⟩

/-- `createNewChat` always activates the freshly generated id and appends
the seeded session. -/
theorem createNewChat_state (newId : String) (q : Bool) (s : AppState) :
    (createNewChat newId q s).2.currentChatId = some newId
      ∧ (createNewChat newId q s).2.chats
          = s.chats
              ++ [{ id := newId, title := "New Chat",
                    history := [WELCOME_MESSAGE] }] := by
  have hany : (s.chats
      ++ [({ id := newId, title := "New Chat",
             history := [WELCOME_MESSAGE] } : Chat)]).any
        (fun c => c.id == newId) = true := by
    rw [List.any_append]; simp
  obtain ⟨x, hx, hpx⟩ := find?_isSome_of_any hany
  cases q <;> constructor <;>
    simp [createNewChat, saveChats, setCurrentChat, renderChatHistory, hx]

/-- The state after `createNewChat` satisfies the registry invariant. -/
theorem createNewChat_activeOk (newId : String) (q : Bool) (s : AppState) :
    activeOk (createNewChat newId q s).2 := by
  obtain ⟨h1, h2⟩ := createNewChat_state newId q s
  refine activeOk_of _ newId h1 ?_
  rw [h2, List.any_append]
  simp

/-- Selecting the head of a non-empty registry satisfies the invariant. -/
theorem setCurrentChat_head (s : AppState) (c : Chat) (rest : List Chat)
    (hc : s.chats = c :: rest) :
    activeOk (renderChatHistory (setCurrentChat c.id s).2) := by
  have hfind : s.chats.find? (fun x => x.id == c.id) = some c := by
    rw [hc]; exact List.find?_cons_of_pos _ (by simp)
  refine activeOk_of _ c.id ?_ ?_
  · simp [setCurrentChat, hfind, renderChatHistory]
  · simp [setCurrentChat, hfind, renderChatHistory, hc]

/-- Case analysis of `deleteChat`: either the id is absent and the state
is untouched, or the first matching chat is spliced out and the active
pointer is cleared exactly when it pointed at the deleted id. -/
theorem deleteChat_cases (chatId : String) (q : Bool) (s : AppState) :
    ((deleteChat chatId q s).2 = s
        ∧ s.chats.findIdx? (fun c => c.id == chatId) = none)
      ∨ (∃ i, s.chats.findIdx? (fun c => c.id == chatId) = some i
          ∧ (deleteChat chatId q s).2.chats = s.chats.eraseIdx i
          ∧ ((s.currentChatId == some chatId) = true →
                (deleteChat chatId q s).2.currentChatId = none)
          ∧ ((s.currentChatId == some chatId) = false →
                (deleteChat chatId q s).2.currentChatId = s.currentChatId)) := by
  cases hf : s.chats.findIdx? (fun c => c.id == chatId) with
  | none => exact Or.inl ⟨by simp [deleteChat, hf], rfl⟩
  | some i =>
      refine Or.inr ⟨i, rfl, ?_, ?_, ?_⟩
      · cases q <;> cases hcc : (s.currentChatId == some chatId) <;>
          simp [deleteChat, hf, saveChats, hcc]
      · intro hcc
        cases q <;> simp [deleteChat, hf, saveChats, hcc]
      · intro hcc
        cases q <;> simp [deleteChat, hf, saveChats, hcc]

/-- A successful `findIdx?` implies a non-empty list. -/
theorem ne_nil_of_findIdx? {α} {p : α → Bool} {l : List α} {i : Nat}
    (h : l.findIdx? p = some i) : l ≠ [] := by
  intro hnil
  subst hnil
  simp [List.findIdx?] at h

/-- A list whose length check `== 0` fails is a cons. -/
theorem exists_cons_of_length_ne_zero {α} {l : List α}
    (h : (l.length == 0) = false) : ∃ c rest, l = c :: rest := by
  cases l with
  | nil => simp at h
  | cons c rest => exact ⟨c, rest, rfl⟩

/-- `deleteChatHandler` preserves the registry invariant. -/
theorem deleteChatHandler_activeOk (chatId : String) (conf : Bool)
    (freshId : String) (q : Bool) (s : AppState) (h : activeOk s) :
    activeOk (deleteChatHandler chatId conf freshId q s) := by
  cases conf with
  | false => simpa [deleteChatHandler] using h
  | true =>
    show activeOk
      (if (deleteChat chatId q s).2.chats.length == 0 then
        (createNewChat freshId q (deleteChat chatId q s).2).2
      else if !(jsTruthyOptStr (deleteChat chatId q s).2.currentChatId) then
        match (deleteChat chatId q s).2.chats with
        | c :: _ =>
            renderChatHistory (setCurrentChat c.id (deleteChat chatId q s).2).2
        | [] => (deleteChat chatId q s).2
      else (deleteChat chatId q s).2)
    rcases deleteChat_cases chatId q s with ⟨hds, hnone⟩
      | ⟨i, hfi, hchats, hreset, hkeep⟩
    · rw [hds]
      cases hlen : s.chats.length == 0 with
      | true => rw [if_pos rfl]; exact createNewChat_activeOk freshId q s
      | false =>
          rw [if_neg (by simp)]
          cases htr : jsTruthyOptStr s.currentChatId with
          | true => rw [if_neg (by simp)]; exact h
          | false =>
              rw [if_pos (by simp)]
              obtain ⟨c, rest, hc⟩ := exists_cons_of_length_ne_zero hlen
              rw [hc]
              exact setCurrentChat_head s c rest hc
    · cases hlen : (deleteChat chatId q s).2.chats.length == 0 with
      | true =>
          rw [if_pos rfl]
          exact createNewChat_activeOk freshId q (deleteChat chatId q s).2
      | false =>
          rw [if_neg (by simp)]
          cases htr : jsTruthyOptStr (deleteChat chatId q s).2.currentChatId with
          | false =>
              rw [if_pos (by simp)]
              obtain ⟨c, rest, hc⟩ := exists_cons_of_length_ne_zero hlen
              rw [hc]
              exact setCurrentChat_head _ c rest hc
          | true =>
              rw [if_neg (by simp)]
              cases hcc : (s.currentChatId == some chatId) with
              | true =>
                  rw [hreset hcc] at htr
                  simp [jsTruthyOptStr] at htr
              | false =>
                  have hk := hkeep hcc
                  obtain ⟨a, ⟨ha1, ha2⟩, _⟩ := h (ne_nil_of_findIdx? hfi)
                  have hane : a ≠ chatId := by
                    intro heq
                    rw [ha1, heq] at hcc
                    simp at hcc
                  refine activeOk_of _ a (by rw [hk, ha1]) ?_
                  rw [hchats]
                  refine any_eraseIdx_of_findIdx?
                    (fun c => c.id == chatId) (fun c => c.id == a)
                    ?_ s.chats i hfi ha2
                  intro x hx
                  have hxid : x.id = chatId := by simpa using hx
                  simp [hxid]
                  exact fun hax => hane hax.symm

/-- `deleteChatHandler` with a confirmed dialog, unfolded. -/
theorem deleteChatHandler_true_def (chatId freshId : String) (q : Bool)
    (s : AppState) :
    deleteChatHandler chatId true freshId q s
      = (if (deleteChat chatId q s).2.chats.length == 0 then
          (createNewChat freshId q (deleteChat chatId q s).2).2
        else if !(jsTruthyOptStr (deleteChat chatId q s).2.currentChatId) then
          match (deleteChat chatId q s).2.chats with
          | c :: _ =>
              renderChatHistory
                (setCurrentChat c.id (deleteChat chatId q s).2).2
          | [] => (deleteChat chatId q s).2
        else (deleteChat chatId q s).2) := rfl

/-- C3: (1) every sequence of `createNewChat` / `deleteChatHandler`
operations preserves the invariant that a non-empty registry has exactly
one active session id; (2) a confirmed delete of the only remaining
session auto-creates a fresh active session seeded with the welcome
message; (3) a confirmed delete of the active session with others
remaining falls back to the first remaining session. -/
theorem c3_registry_invariant :
    (∀ (q : Bool) (s : AppState) (ops : List SessionOp),
        activeOk s → activeOk (applyOps q s ops))
      ∧ (∀ (q : Bool) (s : AppState) (c : Chat) (freshId : String),
          s.chats = [c] →
            (deleteChatHandler c.id true freshId q s).chats
                = [{ id := freshId, title := "New Chat",
                     history := [WELCOME_MESSAGE] }]
              ∧ (deleteChatHandler c.id true freshId q s).currentChatId
                  = some freshId)
      ∧ (∀ (q : Bool) (s : AppState) (chatId freshId : String) (i : Nat)
            (c0 : Chat) (rest : List Chat),
          s.currentChatId = some chatId →
          s.chats.findIdx? (fun c => c.id == chatId) = some i →
          s.chats.eraseIdx i = c0 :: rest →
            (deleteChatHandler chatId true freshId q s).currentChatId
                = some c0.id
              ∧ (deleteChatHandler chatId true freshId q s).chats
                  = c0 :: rest) := by
  refine ⟨?_, ?_, ?_⟩
  · intro q s ops
    induction ops generalizing s with
    | nil => exact fun h => h
    | cons op t ih =>
        intro h
        show activeOk (applyOps q (applyOp q s op) t)
        apply ih
        cases op with
        | create newId => exact createNewChat_activeOk newId q s
        | delete cid conf fid =>
            exact deleteChatHandler_activeOk cid conf fid q s h
  · intro q s c freshId hc
    rw [deleteChatHandler_true_def]
    rcases deleteChat_cases c.id q s with ⟨_, hnone⟩
      | ⟨i, hfi', hchats, _, _⟩
    · rw [hc, findIdx?_cons0] at hnone
      simp at hnone
    · rw [hc, findIdx?_cons0] at hfi'
      simp at hfi'
      have hdchats : (deleteChat c.id q s).2.chats = [] := by
        rw [hchats, ← hfi', hc]
        rfl
      rw [hdchats, if_pos (by simp)]
      constructor
      · rw [(createNewChat_state freshId q _).2, hdchats]
        rfl
      · exact (createNewChat_state freshId q _).1
  · intro q s chatId freshId i c0 rest hcur hfi herase
    rw [deleteChatHandler_true_def]
    rcases deleteChat_cases chatId q s with ⟨_, hnone⟩
      | ⟨i', hfi', hchats, hreset, _⟩
    · rw [hfi] at hnone
      simp at hnone
    · rw [hfi] at hfi'
      injection hfi' with hii
      subst hii
      have hd_cid : (deleteChat chatId q s).2.currentChatId = none :=
        hreset (by rw [hcur]; simp)
      have hdchats : (deleteChat chatId q s).2.chats = c0 :: rest := by
        rw [hchats, herase]
      have hfind : (deleteChat chatId q s).2.chats.find?
          (fun x => x.id == c0.id) = some c0 := by
        rw [hdchats]
        exact List.find?_cons_of_pos _ (by simp)
      rw [hdchats, hd_cid, if_neg (by simp), if_pos (by simp [jsTruthyOptStr])]
      constructor <;> simp [setCurrentChat, hfind, renderChatHistory, hdchats]

/-- A one-session registry holding only chat `A`. -/
def singleState : AppState :=
  { chats := [chatA], currentChatId := some "A"
    currentChatHistory := chatA.history, store := some [chatA]
    isProcessing := false, ui := [], logs := [] }

/-- C3 witness: the invariant survives a concrete create-then-delete
sequence; deleting the only session recreates a fresh active one; deleting
the active of two sessions falls back to `B`. -/
theorem c3_registry_invariant_witness :
    activeOk (applyOps true demoState
        [SessionOp.create "N", SessionOp.delete "A" true "F"])
      ∧ singleState.chats = [chatA]
      ∧ (deleteChatHandler chatA.id true "F" true singleState).chats
          = [{ id := "F", title := "New Chat", history := [WELCOME_MESSAGE] }]
      ∧ (deleteChatHandler chatA.id true "F" true
            singleState).currentChatId = some "F"
      ∧ demoState.currentChatId = some "A"
      ∧ demoState.chats.findIdx? (fun c => c.id == "A") = some 0
      ∧ demoState.chats.eraseIdx 0 = [chatB]
      ∧ (deleteChatHandler "A" true "F2" true demoState).currentChatId
          = some chatB.id :=
  ⟨c3_registry_invariant.1 true demoState
      [SessionOp.create "N", SessionOp.delete "A" true "F"]
      (activeOk_of demoState "A" rfl (by decide)),
    rfl,
    (c3_registry_invariant.2.1 true singleState chatA "F" rfl).1,
    (c3_registry_invariant.2.1 true singleState chatA "F" rfl).2,
    rfl,
    by decide,
    by decide,
    (c3_registry_invariant.2.2 true demoState "A" "F2" 0 chatB [] rfl
      (by decide) (by decide)).1⟩
